import Mathlib

/-!
Verification of the settings-holder library (`settings_holder/holder.py`,
`settings_holder/utils.py`) against its specification.

The Python code is shallowly embedded: Python values flowing through the
holder become the inductive type `Value`; the external module universe
(`sys.modules` / `import_module`) and zero-argument invocation become the
explicit environment `PyEnv`; raised exceptions become the `Err` sum carried
in `Except`; the holder instance (its private fields and its instance
dictionary) becomes the structure `Holder`; Python's attribute protocol
(instance dictionary first, `__getattr__` as fallback) becomes `access`.
Python strings are modelled character-wise: `str.split(".")`,
`str.startswith` and `len` become `splitOnDot`, `strStartsWith` and
`String.length`, which agree with Python on every unicode string.
-/

mutual
/-- A Python value as it flows through the holder: strings, scalar numbers,
booleans, lists, tuples, string-keyed dicts (insertion-ordered sequences of
key/value pairs) and opaque runtime objects (imported functions, classes,
call results), named by an identifier. The element sequences are the mutual
types `ValueList` and `ValueDict` so that the recursion of `make_imports`
is structural. -/
inductive Value where
  | str (s : String)
  | int (n : Int)
  | bool (b : Bool)
  | list (xs : ValueList)
  | tuple (xs : ValueList)
  | dict (kvs : ValueDict)
  | obj (name : String)

/-- The elements of a Python list or tuple, in order. -/
inductive ValueList where
  | nil
  | cons (v : Value) (vs : ValueList)

/-- The items of a Python dict, in insertion order. -/
inductive ValueDict where
  | nil
  | cons (k : String) (v : Value) (kvs : ValueDict)
end

/-- A raised Python exception, by class, with its rendered message.
`ImproperlyConfigured` covers the unknown/removed-setting errors,
`importErr` the `ImportError` of `import_from_string`, `valueErr` the
`ValueError` of `make_imports`, `keyError` the (unreachable) defaults
`KeyError`, and `validationErr` whatever a user validator raises. -/
inductive Err where
  | improperlyConfigured (msg : String)
  | importErr (msg : String)
  | valueErr (msg : String)
  | keyError (name : String)
  | validationErr (msg : String)

/-- The rendered message of an exception (`str(error)` in Python). -/
def Err.message : Err → String
  | .improperlyConfigured msg => msg
  | .importErr msg => msg
  | .valueErr msg => msg
  | .keyError name => name
  | .validationErr msg => msg

/-- One entry of the `import_strings` set: a plain `str` pattern, or a
`bytes` pattern (the "invoke immediately" variant). -/
inductive ImportString where
  | str (s : String)
  | bytes (s : String)

/-- The pattern text of a marker; for the `bytes` variant this is its utf-8
decoding, which is the identity on the carried text. -/
def ImportString.pattern : ImportString → String
  | .str s => s
  | .bytes s => s

/-- `isinstance(value, bytes)` for a marker. -/
def ImportString.isBytes : ImportString → Bool
  | .str _ => false
  | .bytes _ => true

/-- The result triple of `SettingsHolder.is_import_setting`. -/
structure ImportSettingResults where
  is_import : Bool
  is_immediate : Bool
  is_nested : Bool
deriving DecidableEq

/-- Python `s.split(".")` on the character list: accumulates the current
segment (reversed) and cuts at every dot. -/
def splitOnDotAux : List Char → List Char → List String
  | [], acc => [String.mk acc.reverse]
  | c :: cs, acc =>
    if c = '.' then String.mk acc.reverse :: splitOnDotAux cs []
    else splitOnDotAux cs (c :: acc)

/-- Python `s.split(".")`. -/
def splitOnDot (s : String) : List String :=
  splitOnDotAux s.data []

/-- Python `".".join(parts)`. -/
def joinDot : List String → String
  | [] => ""
  | [s] => s
  | s :: rest => s ++ "." ++ joinDot rest

/-- Python `s.startswith(pre)`: character-wise prefix test. -/
def strStartsWith (s pre : String) : Bool :=
  List.isPrefixOf pre.data s.data

/-- `SettingsHolder.substitute_wildcards`: substitute wildcards in `value`
with the matching parts in `attr` when both are split by periods. -/
def substituteWildcards (attr value : String) : String :=
  let attrParts := splitOnDot attr
  joinDot ((splitOnDot value).enum.map (fun p =>
    if p.2 = "*" ∧ p.1 < attrParts.length then attrParts.getD p.1 p.2 else p.2))

/-- `SettingsHolder.is_import_setting`: walk the import markers; the first
whose wildcard-substituted form has `attr` as a prefix decides the result
(the Python set's iteration order is determinized as a list). -/
def isImportSetting (imports : List ImportString) (attr : String) : ImportSettingResults :=
  match imports with
  | [] => ⟨false, false, false⟩
  | m :: rest =>
    let name := substituteWildcards attr m.pattern
    if strStartsWith name attr then
      ⟨true, m.isBytes, decide (attr.length < name.length)⟩
    else isImportSetting rest attr

example : substituteWildcards "FOO.BAR" "FOO.*" = "FOO.BAR" := by decide
example : substituteWildcards "FOO" "FOO.*" = "FOO.*" := by decide
example : substituteWildcards "FOO" "FOOBAR" = "FOOBAR" := by decide
example : isImportSetting [ImportString.str "FOOBAR"] "FOO" = ⟨true, false, true⟩ := by decide
example : isImportSetting [ImportString.bytes "FOO"] "FOO" = ⟨true, true, false⟩ := by decide
example : isImportSetting [ImportString.str "FOO.0"] "FOO" = ⟨true, false, true⟩ := by decide

/-- The Python runtime surrounding the holder, as far as `import_from_string`
reaches it: `modules m` is the attribute table of module `m` once loaded
(`Option.none` when neither `sys.modules` holds it nor `import_module` can
load it), `importFailure m` renders the `ImportError` raised for an
unloadable `m` (its class name and text), and `call v` is the result of
invoking the object `v` with no arguments. -/
structure PyEnv where
  modules : String → Option (String → Option Value)
  importFailure : String → String
  call : Value → Value

/-- Python `val.rsplit(".", 1)` restricted to its two-part outcome: the text
before the last dot and the text after it, or `Option.none` when there is no
dot (the `ValueError` branch). -/
def rsplitDotAux : List Char → Option (List Char × List Char)
  | [] => Option.none
  | c :: cs =>
    match rsplitDotAux cs with
    | Option.some (before, after) => Option.some (c :: before, after)
    | Option.none => if c = '.' then Option.some ([], cs) else Option.none

/-- Python `val.rsplit(".", 1)` as `(module_path, class_name)`. -/
def rsplitLastDot (s : String) : Option (String × String) :=
  (rsplitDotAux s.data).map (fun p => (String.mk p.1, String.mk p.2))

/-- `SettingsHolder.import_from_string`: split `val` on the last dot, load
the module through the runtime and fetch the named attribute, turning each
failure into the documented `ImportError` message. -/
def importFromString (env : PyEnv) (val : String) (setting : String) : Except Err Value :=
  let msg := "Could not import '" ++ val ++ "' for setting '" ++ setting ++ "'"
  match rsplitLastDot val with
  | Option.none =>
    Except.error (Err.importErr (msg ++ ": " ++ val ++ " doesn't look like a module path."))
  | Option.some (modulePath, className) =>
    match env.modules modulePath with
    | Option.none =>
      Except.error (Err.importErr (msg ++ ": " ++ env.importFailure modulePath ++ "."))
    | Option.some attrTable =>
      match attrTable className with
      | Option.none =>
        Except.error (Err.importErr (msg ++ ": Module '" ++ modulePath ++
          "' does not define a '" ++ className ++ "' attribute/class"))
      | Option.some v => Except.ok v

mutual
/-- Python `repr(value)` for the embedded values, used in the `ValueError`
messages of `make_imports`. -/
def reprValue : Value → String
  | Value.str s => "'" ++ s ++ "'"
  | Value.int n => toString n
  | Value.bool b => if b then "True" else "False"
  | Value.list xs => "[" ++ reprValueList xs ++ "]"
  | Value.tuple xs => "(" ++ reprValueList xs ++ ")"
  | Value.dict kvs => "\x7b" ++ reprValueDict kvs ++ "\x7d"
  | Value.obj name => name

/-- The comma-separated element reprs of a list or tuple. -/
def reprValueList : ValueList → String
  | ValueList.nil => ""
  | ValueList.cons v ValueList.nil => reprValue v
  | ValueList.cons v vs => reprValue v ++ ", " ++ reprValueList vs

/-- The comma-separated item reprs of a dict. -/
def reprValueDict : ValueDict → String
  | ValueDict.nil => ""
  | ValueDict.cons k v ValueDict.nil => "'" ++ k ++ "': " ++ reprValue v
  | ValueDict.cons k v kvs => "'" ++ k ++ "': " ++ reprValue v ++ ", " ++ reprValueDict kvs
end

mutual
/-- The recursion of `SettingsHolder.make_imports`, with the value argument
before the path so that the recursion is structural in the mutual `Value`
types; `makeImports` below restores the source's `(name, value)` order. -/
def makeImportsVal (env : PyEnv) (imports : List ImportString) :
    Value → String → Except Err Value
  | value, name =>
    let results := isImportSetting imports name
    if results.is_import = false then Except.ok value
    else if results.is_nested = false then
      match value with
      | Value.str s =>
        match importFromString env s name with
        | Except.error e => Except.error e
        | Except.ok v =>
          if results.is_immediate then Except.ok (env.call v) else Except.ok v
      | v =>
        Except.error (Err.valueErr
          ("'" ++ name ++ "' should be a string. Got " ++ reprValue v ++ "."))
    else
      match value with
      | Value.list xs => (makeImportsSeq env imports xs (name ++ ".0")).map Value.list
      | Value.tuple xs => (makeImportsSeq env imports xs (name ++ ".0")).map Value.tuple
      | Value.dict kvs => (makeImportsMap env imports kvs name).map Value.dict
      | v =>
        Except.error (Err.valueErr
          ("'" ++ name ++ "' should be a mutable sequence or mapping. Got " ++ reprValue v ++ "."))

/-- The generator `(make_imports(f"{name}.0", val) for val in value)` driven
to a sequence: the first failing element's exception propagates. The path is
here already the extended `… ++ ".0"`. -/
def makeImportsSeq (env : PyEnv) (imports : List ImportString) :
    ValueList → String → Except Err ValueList
  | ValueList.nil, _ => Except.ok ValueList.nil
  | ValueList.cons v vs, name =>
    match makeImportsVal env imports v name with
    | Except.error e => Except.error e
    | Except.ok w =>
      match makeImportsSeq env imports vs name with
      | Except.error e => Except.error e
      | Except.ok ws => Except.ok (ValueList.cons w ws)

/-- The generator `((key, make_imports(f"{name}.{key}", val)) for key, val
in value.items())` driven to a sequence; the path is the unextended base
path. -/
def makeImportsMap (env : PyEnv) (imports : List ImportString) :
    ValueDict → String → Except Err ValueDict
  | ValueDict.nil, _ => Except.ok ValueDict.nil
  | ValueDict.cons k v kvs, name =>
    match makeImportsVal env imports v (name ++ "." ++ k) with
    | Except.error e => Except.error e
    | Except.ok w =>
      match makeImportsMap env imports kvs name with
      | Except.error e => Except.error e
      | Except.ok ws => Except.ok (ValueDict.cons k w ws)
end

/-- `SettingsHolder.make_imports`: make the necessary imports for the given
setting, recursing inside sequences and mappings. An exact (non-nested)
marker match requires a string and imports it, invoking the result when the
marker was the bytes variant; a nested match rebuilds a list or tuple with
every element resolved under the literal path segment `0`, and a dict with
every value resolved under its key. (Python's `str` is also a `Sequence`;
a nested match on a string value feeds `type(value)` a generator there and
yields its nondeterministic `repr` — a degenerate case no caller reaches,
embedded as the mapping/sequence `ValueError`.) -/
def makeImports (env : PyEnv) (imports : List ImportString) (name : String)
    (value : Value) : Except Err Value :=
  makeImportsVal env imports value name

/-- `make_imports` over the elements of a list or tuple (path already
extended by `.0`). -/
def makeImportsList (env : PyEnv) (imports : List ImportString) (name : String)
    (xs : ValueList) : Except Err ValueList :=
  makeImportsSeq env imports xs name

/-- `make_imports` over the items of a dict (base path). -/
def makeImportsDict (env : PyEnv) (imports : List ImportString) (name : String)
    (kvs : ValueDict) : Except Err ValueDict :=
  makeImportsMap env imports kvs name

/-- A concrete runtime with the two modules the tests import from. -/
def envW : PyEnv :=
  ⟨fun m => if m = "pkg.mod" then
      Option.some (fun a => if a = "function" then Option.some (Value.obj "pkg.mod.function") else Option.none)
    else Option.none,
   fun m => "ModuleNotFoundError: No module named '" ++ m ++ "'",
   fun v => Value.tuple (ValueList.cons (Value.str "called") (ValueList.cons v ValueList.nil))⟩

example : makeImports envW [ImportString.str "FOO"] "FOO" (Value.str "pkg.mod.function") =
    Except.ok (Value.obj "pkg.mod.function") := rfl
example : makeImports envW [ImportString.bytes "FOO"] "FOO" (Value.str "pkg.mod.function") =
    Except.ok (Value.tuple (ValueList.cons (Value.str "called")
      (ValueList.cons (Value.obj "pkg.mod.function") ValueList.nil))) := rfl
example : makeImports envW [ImportString.str "FOO.0"] "FOO"
      (Value.list (ValueList.cons (Value.str "pkg.mod.function") ValueList.nil)) =
    Except.ok (Value.list (ValueList.cons (Value.obj "pkg.mod.function") ValueList.nil)) := rfl
example : makeImports envW [ImportString.str "FOO"] "FOO" (Value.str "bar") =
    Except.error (Err.importErr "Could not import 'bar' for setting 'FOO': bar doesn't look like a module path.") := rfl

/-- The `SettingsHolder` instance: the private constructor fields plus the
dynamic state. `attrs` is the instance dictionary restricted to dynamic
(cache) attributes — the private underscore fields are the other structure
fields; `cachedAttrs` is `_cached_attrs` (the Python set determinized as a
duplicate-free list in insertion order); `settingsChecked` is
`_settings_checked`. `validators` maps a setting name to its check
function, `Option.none` meaning the callable accepts (returns) and
`Option.some e` that it raises `e`. -/
structure Holder where
  settingName : String
  defaults : List (String × Value)
  imports : List ImportString
  removedSettings : List (String × Option String)
  validators : List (String × (Value → Option Err))
  attrs : List (String × Value)
  cachedAttrs : List String
  settingsChecked : Bool

/-- Lines 154-156 of `holder.py`: the removed-setting message, with the
replacement hint appended exactly when a replacement is recorded. -/
def removedMessage (settingName name : String) (newSetting : Option String) : String :=
  let msg := "Setting '" ++ settingName ++ "." ++ name ++ "' has been removed."
  match newSetting with
  | Option.none => msg
  | Option.some ns => msg ++ " Use '" ++ settingName ++ "." ++ ns ++ "' instead."

/-- `SettingsHolder.check_setting`: `Option.none` when `name` is a key of
`defaults`, otherwise the `ImproperlyConfigured` error raised. -/
def checkSetting (h : Holder) (name : String) : Option Err :=
  if (h.defaults.lookup name).isSome then Option.none
  else
    match h.removedSettings.lookup name with
    | Option.none =>
      Option.some (Err.improperlyConfigured
        ("Setting '" ++ h.settingName ++ "." ++ name ++ "' does not exist."))
    | Option.some newSetting =>
      Option.some (Err.improperlyConfigured (removedMessage h.settingName name newSetting))

/-- The keys of a mapping in iteration order with duplicates dropped
(association lists determinize Python's `set(...)`). -/
def dedupKeys (l : List String) : List String :=
  l.foldl (fun acc k => if k ∈ acc then acc else acc ++ [k]) []

/-- `SettingsHolder.check_user_settings`: check every name the external
source supplies (plus the accessed one), collect the `ImproperlyConfigured`
messages, raise them joined by newlines, and only on success record
`_settings_checked = True`. -/
def checkUserSettings (h : Holder) (userSettings : List (String × Value))
    (accessedSetting : Option String) : Except Err Holder :=
  let names := dedupKeys (userSettings.map Prod.fst)
  let names := match accessedSetting with
    | Option.none => names
    | Option.some a => if a ∈ names then names else names ++ [a]
  let errors := names.filterMap (fun n => (checkSetting h n).map Err.message)
  if errors = [] then Except.ok { h with settingsChecked := true }
  else Except.error (Err.improperlyConfigured (String.intercalate "\n" errors))

/-- Python `attr[0] == "_"` (on the empty name Python raises `IndexError`
before anything is cached; attribute syntax cannot produce that name, and
the embedding treats it as not cacheable). -/
def startsWithUnderscore (attr : String) : Bool :=
  match attr.data with
  | [] => false
  | c :: _ => c = '_'

/-- Update-or-append on the instance dictionary (`super().__setattr__`). -/
def setAttrList (attrs : List (String × Value)) (attr : String) (v : Value) :
    List (String × Value) :=
  match attrs with
  | [] => [(attr, v)]
  | (k, w) :: rest =>
    if k = attr then (k, v) :: rest else (k, w) :: setAttrList rest attr v

/-- `SettingsHolder.__setattr__`: if the attribute is not private and is a
valid setting, note it as cached, then store it in the instance
dictionary. -/
def holderSetattr (h : Holder) (attr : String) (v : Value) : Holder :=
  let h1 :=
    if startsWithUnderscore attr = false ∧ (h.defaults.lookup attr).isSome then
      { h with cachedAttrs :=
          if attr ∈ h.cachedAttrs then h.cachedAttrs else h.cachedAttrs ++ [attr] }
    else h
  { h1 with attrs := setAttrList h1.attrs attr v }

/-- The raw value of line 101-104 of `holder.py`: the external source's
entry for `attr` when present, else `defaults[attr]` (`Option.none` is the
`KeyError` on `self._defaults[attr]`, unreachable after the checks). -/
def rawLookup (userSettings : List (String × Value)) (h : Holder) (attr : String) :
    Option Value :=
  match userSettings.lookup attr with
  | Option.some v => Option.some v
  | Option.none => h.defaults.lookup attr

/-- What one attribute access did: the value returned or the exception
raised, the holder state afterwards, and how often the resolution work ran —
reads of the external key-value source, passes of `make_imports`, and
validator invocations. -/
structure AccessOutcome where
  result : Except Err Value
  holder : Holder
  sourceLookups : Nat
  importResolutions : Nat
  validatorCalls : Nat

/-- `SettingsHolder.__getattr__` (the slow path, reached only when the
instance dictionary lacks `attr`; `settings.configured` is taken as true):
run the settings check, read the external source, resolve imports, validate,
and cache the result by `setattr`. -/
def holderGetattr (env : PyEnv) (userSettings : List (String × Value))
    (h : Holder) (attr : String) : AccessOutcome :=
  match (if h.settingsChecked = false
      then checkUserSettings h userSettings (Option.some attr)
      else
        match checkSetting h attr with
        | Option.some e => Except.error e
        | Option.none => Except.ok h) with
  | Except.error e => ⟨Except.error e, h, 0, 0, 0⟩
  | Except.ok h1 =>
    match rawLookup userSettings h1 attr with
    | Option.none => ⟨Except.error (Err.keyError attr), h1, 1, 0, 0⟩
    | Option.some raw =>
      match makeImports env h1.imports attr raw with
      | Except.error e => ⟨Except.error e, h1, 1, 1, 0⟩
      | Except.ok v =>
        match h1.validators.lookup attr with
        | Option.none => ⟨Except.ok v, holderSetattr h1 attr v, 1, 1, 0⟩
        | Option.some f =>
          match f v with
          | Option.some e => ⟨Except.error e, h1, 1, 1, 1⟩
          | Option.none => ⟨Except.ok v, holderSetattr h1 attr v, 1, 1, 1⟩

/-- Python attribute lookup on the holder: the instance dictionary first
(the cached fast path, no work), `__getattr__` as the fallback. -/
def access (env : PyEnv) (userSettings : List (String × Value))
    (h : Holder) (attr : String) : AccessOutcome :=
  match h.attrs.lookup attr with
  | Option.some v => ⟨Except.ok v, h, 0, 0, 0⟩
  | Option.none => holderGetattr env userSettings h attr

/-- `SettingsHolder.reload`: delete every cached attribute from the
instance dictionary, clear `_cached_attrs`, reset `_settings_checked`.
(`delattr` presumes each cached name is present — `__setattr__` put it
there.) -/
def reload (h : Holder) : Holder :=
  { h with
    attrs := h.attrs.filter (fun kv => !(h.cachedAttrs.contains kv.1)),
    cachedAttrs := [],
    settingsChecked := false }

/-- `reload_settings(setting_name, setting_holder)` applied to an event
payload whose `setting` entry is `payload`: the returned flag records
whether `setting_holder.reload()` was invoked. -/
def reloadSettingsHandler (settingName : String) (h : Holder) (payload : String) :
    Holder × Bool :=
  if payload = settingName then (reload h, true) else (h, false)

/-- A holder as `SettingsHolder(setting_name=name, defaults=defaults, ...)`
builds one once the configured-signal check ran: no dynamic attributes, no
cached names, settings checked. -/
def mkHolder (name : String) (defaults : List (String × Value))
    (imports : List ImportString) (removed : List (String × Option String))
    (validators : List (String × (Value → Option Err))) : Holder :=
  ⟨name, defaults, imports, removed, validators, [], [], true⟩

example :
    (access envW [] (mkHolder "MOCK" [("FOO", Value.str "bar")] [] [] []) "FOO").result =
      Except.ok (Value.str "bar") := rfl
example :
    (access envW [("FOO", Value.str "baz")]
      (mkHolder "MOCK" [("FOO", Value.str "bar")] [] [] []) "FOO").result =
      Except.ok (Value.str "baz") := rfl
example :
    (access envW [] (mkHolder "MOCK" [] [] [] []) "FOO").result =
      Except.error (Err.improperlyConfigured "Setting 'MOCK.FOO' does not exist.") := rfl
example :
    (access envW [] (mkHolder "MOCK" [] [] [("FOO", Option.some "BAR")] []) "FOO").result =
      Except.error (Err.improperlyConfigured
        "Setting 'MOCK.FOO' has been removed. Use 'MOCK.BAR' instead.") := rfl

/-! ### Shared lemmas -/

theorem listIsPrefixOf_refl (l : List Char) : List.isPrefixOf l l = true := by
  induction l with
  | nil => rfl
  | cons c cs ih => simp [List.isPrefixOf, ih]

theorem strStartsWith_refl (s : String) : strStartsWith s s = true :=
  listIsPrefixOf_refl s.data

theorem lookup_setAttrList (attrs : List (String × Value)) (attr : String) (v : Value) :
    (setAttrList attrs attr v).lookup attr = Option.some v := by
  induction attrs with
  | nil => simp [setAttrList, List.lookup]
  | cons kv rest ih =>
    obtain ⟨k, w⟩ := kv
    by_cases hk : k = attr
    · subst hk
      simp [setAttrList, List.lookup]
    · simp only [setAttrList, if_neg hk, List.lookup]
      have : (attr == k) = false := by
        simp [beq_eq_false_iff_ne]
        exact fun hc => hk hc.symm
      simp [this, ih]

theorem lookup_filter_cached (l : List (String × Value)) (cached : List String)
    (attr : String) (hmem : attr ∈ cached) :
    (l.filter (fun kv => !(cached.contains kv.1))).lookup attr = Option.none := by
  rw [List.lookup_eq_none_iff]
  intro p hp
  have hpred := List.of_mem_filter hp
  simp only [List.contains, Bool.not_eq_true', List.elem_eq_mem,
    decide_eq_false_iff_not] at hpred
  simp only [bne_iff_ne, ne_eq]
  rintro rfl
  exact hpred hmem

theorem lookup_filter_uncached (l : List (String × Value)) (cached : List String)
    (attr : String) (hmem : attr ∉ cached) :
    (l.filter (fun kv => !(cached.contains kv.1))).lookup attr = l.lookup attr := by
  induction l with
  | nil => rfl
  | cons kv rest ih =>
    obtain ⟨k, w⟩ := kv
    by_cases hk : k ∈ cached
    · have hstep : List.filter (fun kv => !(cached.contains kv.1)) ((k, w) :: rest) =
          List.filter (fun kv => !(cached.contains kv.1)) rest := by
        rw [List.filter_cons]
        simp [hk]
      have hne : (attr == k) = false := by
        simp only [beq_eq_false_iff_ne]
        rintro rfl
        exact hmem hk
      rw [hstep, ih, List.lookup_cons, hne]
    · have hstep : List.filter (fun kv => !(cached.contains kv.1)) ((k, w) :: rest) =
          (k, w) :: List.filter (fun kv => !(cached.contains kv.1)) rest := by
        rw [List.filter_cons]
        simp [hk]
      rw [hstep, List.lookup_cons, List.lookup_cons]
      cases hbe : (attr == k)
      · exact ih
      · rfl

/-! ### C9 -/

/-- C9: the reload-bridge handler built by `reload_settings` calls
`holder.reload()` exactly when the event payload's setting name equals the
bound namespace name, and is a no-op completing without error on any other
name. -/
theorem reload_bridge_filters_by_name (settingName : String) (h : Holder)
    (payload : String) :
    ((reloadSettingsHandler settingName h payload).2 = true ↔ payload = settingName) ∧
    (payload = settingName → reloadSettingsHandler settingName h payload = (reload h, true)) ∧
    (payload ≠ settingName → reloadSettingsHandler settingName h payload = (h, false)) := by
  refine ⟨?_, ?_, ?_⟩
  · constructor
    · intro hcall
      by_contra hne
      simp [reloadSettingsHandler, hne] at hcall
    · intro he
      simp [reloadSettingsHandler, he]
  · intro he
    simp [reloadSettingsHandler, he]
  · intro hne
    simp [reloadSettingsHandler, hne]

/-! ### C6 -/

/-- C6: `reload()` removes every cached attribute from the holder, empties
the resolved cache and leaves `defaults`, the import markers, the removed
settings and the validators unchanged; a previously cached name then takes
the full `__getattr__` slow path again. -/
theorem reload_clears_cache (h : Holder) :
    (reload h).defaults = h.defaults ∧
    (reload h).imports = h.imports ∧
    (reload h).removedSettings = h.removedSettings ∧
    (reload h).validators = h.validators ∧
    (reload h).cachedAttrs = [] ∧
    (∀ attr, attr ∈ h.cachedAttrs → (reload h).attrs.lookup attr = Option.none) ∧
    (∀ attr, attr ∉ h.cachedAttrs → (reload h).attrs.lookup attr = h.attrs.lookup attr) ∧
    (∀ env userSettings attr, attr ∈ h.cachedAttrs →
      access env userSettings (reload h) attr = holderGetattr env userSettings (reload h) attr) := by
  refine ⟨rfl, rfl, rfl, rfl, rfl, ?_, ?_, ?_⟩
  · intro attr hmem
    exact lookup_filter_cached h.attrs h.cachedAttrs attr hmem
  · intro attr hmem
    exact lookup_filter_uncached h.attrs h.cachedAttrs attr hmem
  · intro env userSettings attr hmem
    have hnone : (reload h).attrs.lookup attr = Option.none :=
      lookup_filter_cached h.attrs h.cachedAttrs attr hmem
    simp [access, hnone]

/-! ### C1 -/

/-- The import-governed condition exactly as claim C1 words it: some marker
pattern's wildcard-substituted form either equals the accessed path or
starts with the path followed by a dot. (Spec-side predicate, kept apart
from `isImportSetting`, which is translated from the code.) -/
def importGovernedSpec (imports : List ImportString) (attr : String) : Bool :=
  imports.any (fun m =>
    let n := substituteWildcards attr m.pattern
    n == attr || strStartsWith n (attr ++ "."))

/-- C1 counterexample: with the marker set `{"FOOBAR"}` and accessed path
`"FOO"` the code treats the path as import-governed (plain `startswith`,
recorded as a nested match), though the substituted pattern neither equals
`"FOO"` nor starts with `"FOO."` — the claim's biconditional fails. -/
theorem import_governed_counterexample :
    (isImportSetting [ImportString.str "FOOBAR"] "FOO" =
      ⟨true, false, true⟩) ∧
    ¬((isImportSetting [ImportString.str "FOOBAR"] "FOO").is_import = true ↔
      importGovernedSpec [ImportString.str "FOOBAR"] "FOO" = true) := by
  constructor
  · rfl
  · decide

/-- C1 (amended): a path is import-governed exactly when some marker's
wildcard-substituted form has the path as a plain string prefix (a
following dot is not required); the matched marker's substituted form
equal to the path is recorded as a non-nested match, a strictly longer one
as nested, and the bytes variant as the immediate flag. -/
theorem import_governed_startswith (imports : List ImportString) (attr : String) :
    ((isImportSetting imports attr).is_import = true ↔
      ∃ m, m ∈ imports ∧ strStartsWith (substituteWildcards attr m.pattern) attr = true) ∧
    ((isImportSetting imports attr).is_import = true →
      ∃ m, m ∈ imports ∧ strStartsWith (substituteWildcards attr m.pattern) attr = true ∧
        (isImportSetting imports attr).is_nested =
          decide (attr.length < (substituteWildcards attr m.pattern).length) ∧
        (isImportSetting imports attr).is_immediate = m.isBytes) := by
  induction imports with
  | nil =>
    constructor
    · simp [isImportSetting]
    · intro h
      simp [isImportSetting] at h
  | cons m rest ih =>
    by_cases hs : strStartsWith (substituteWildcards attr m.pattern) attr = true
    · constructor
      · constructor
        · intro _
          exact ⟨m, List.mem_cons_self m rest, hs⟩
        · intro _
          simp [isImportSetting, hs]
      · intro _
        refine ⟨m, List.mem_cons_self m rest, hs, ?_, ?_⟩ <;> simp [isImportSetting, hs]
    · have hred : isImportSetting (m :: rest) attr = isImportSetting rest attr := by
        simp [isImportSetting, hs]
      constructor
      · rw [hred, ih.1]
        constructor
        · rintro ⟨n, hn, hsw⟩
          exact ⟨n, List.mem_cons_of_mem m hn, hsw⟩
        · rintro ⟨n, hn, hsw⟩
          rcases List.mem_cons.mp hn with rfl | hn2
          · exact absurd hsw hs
          · exact ⟨n, hn2, hsw⟩
      · rw [hred]
        intro himp
        obtain ⟨n, hn, h1, h2, h3⟩ := ih.2 himp
        exact ⟨n, List.mem_cons_of_mem m hn, h1, h2, h3⟩

/-- C1 witness: a wildcard marker matching exactly, instantiating the
amended equivalence at the marker set `{"FOO.*"}` and path `"FOO.BAR"`. -/
theorem import_governed_startswith_witness :
    (isImportSetting [ImportString.str "FOO.*"] "FOO.BAR").is_import = true ∧
    ∃ m, m ∈ [ImportString.str "FOO.*"] ∧
      strStartsWith (substituteWildcards "FOO.BAR" m.pattern) "FOO.BAR" = true := by
  have h := (import_governed_startswith [ImportString.str "FOO.*"] "FOO.BAR").1
  have himp : (isImportSetting [ImportString.str "FOO.*"] "FOO.BAR").is_import = true := by
    decide
  exact ⟨himp, h.mp himp⟩

/-! ### C2 -/

/-- C2 counterexample: accessing the unknown name `FOO` on a holder bound
to the namespace `MOCK` raises `ImproperlyConfigured` whose message is
`Setting 'MOCK.FOO' does not exist.` — not the claim's
`Invalid Setting: 'FOO'.`. -/
theorem unknown_message_counterexample :
    (access envW [] (mkHolder "MOCK" [] [] [] []) "FOO").result =
      Except.error (Err.improperlyConfigured "Setting 'MOCK.FOO' does not exist.") ∧
    "Setting 'MOCK.FOO' does not exist." ≠ "Invalid Setting: 'FOO'." := by
  constructor
  · rfl
  · decide

/-- C2 (amended): accessing a name outside `defaults` raises
`ImproperlyConfigured` with the message
`Setting '<namespace>.<name>' does not exist.` when the name is not a
removed setting, and `Setting '<namespace>.<name>' has been removed.` when
it is, with ` Use '<namespace>.<replacement>' instead.` appended exactly
when a replacement is recorded. -/
theorem unknown_and_removed_messages (env : PyEnv) (userSettings : List (String × Value))
    (h : Holder) (name : String)
    (hcache : h.attrs.lookup name = Option.none)
    (hchk : h.settingsChecked = true)
    (hdef : h.defaults.lookup name = Option.none) :
    (h.removedSettings.lookup name = Option.none →
      (access env userSettings h name).result = Except.error (Err.improperlyConfigured
        ("Setting '" ++ h.settingName ++ "." ++ name ++ "' does not exist."))) ∧
    (∀ repl, h.removedSettings.lookup name = Option.some repl →
      (access env userSettings h name).result = Except.error (Err.improperlyConfigured
        (removedMessage h.settingName name repl))) := by
  have hcs : ∀ e, checkSetting h name = Option.some e →
      (access env userSettings h name).result = Except.error e := by
    intro e hce
    simp [access, hcache, holderGetattr, hchk, hce]
  constructor
  · intro hrem
    apply hcs
    simp [checkSetting, hdef, hrem]
  · intro repl hrem
    apply hcs
    simp [checkSetting, hdef, hrem]

/-- C2 witness: the removed name `FOO` with recorded replacement `BAR` on
the namespace `MOCK` raises the removed-setting message with the
replacement hint. -/
theorem unknown_and_removed_messages_witness :
    (access envW [] (mkHolder "MOCK" [] [] [("FOO", Option.some "BAR")] []) "FOO").result =
      Except.error (Err.improperlyConfigured
        "Setting 'MOCK.FOO' has been removed. Use 'MOCK.BAR' instead.") :=
  (unknown_and_removed_messages envW [] (mkHolder "MOCK" [] [] [("FOO", Option.some "BAR")] [])
    "FOO" rfl rfl rfl).2 (Option.some "BAR") rfl

/-! ### C3 -/

/-- The validator registered for `attr`, if any, accepts `v` (returns
instead of raising). -/
def validatorAccepts (h : Holder) (attr : String) (v : Value) : Prop :=
  ∀ f, h.validators.lookup attr = Option.some f → f v = Option.none

/-- C3: a first (uncached) access to a name in `defaults` returns the
import-resolved default when the external source has no entry for the
name, and the import-resolved override when it does. -/
theorem first_access_resolves (env : PyEnv) (userSettings : List (String × Value))
    (h : Holder) (attr : String) (d : Value)
    (hcache : h.attrs.lookup attr = Option.none)
    (hchk : h.settingsChecked = true)
    (hdef : h.defaults.lookup attr = Option.some d) :
    (∀ v, userSettings.lookup attr = Option.none →
      makeImports env h.imports attr d = Except.ok v →
      validatorAccepts h attr v →
      (access env userSettings h attr).result = Except.ok v) ∧
    (∀ u v, userSettings.lookup attr = Option.some u →
      makeImports env h.imports attr u = Except.ok v →
      validatorAccepts h attr v →
      (access env userSettings h attr).result = Except.ok v) := by
  have hcheck : checkSetting h attr = Option.none := by
    simp [checkSetting, hdef]
  constructor
  · intro v hus hmi hval
    have hraw : rawLookup userSettings h attr = Option.some d := by
      simp [rawLookup, hus, hdef]
    rcases hv : h.validators.lookup attr with _ | f
    · simp [access, hcache, holderGetattr, hchk, hcheck, hraw, hmi, hv]
    · have hfv := hval f hv
      simp [access, hcache, holderGetattr, hchk, hcheck, hraw, hmi, hv, hfv]
  · intro u v hus hmi hval
    have hraw : rawLookup userSettings h attr = Option.some u := by
      simp [rawLookup, hus]
    rcases hv : h.validators.lookup attr with _ | f
    · simp [access, hcache, holderGetattr, hchk, hcheck, hraw, hmi, hv]
    · have hfv := hval f hv
      simp [access, hcache, holderGetattr, hchk, hcheck, hraw, hmi, hv, hfv]

/-- C3 witness: with default `FOO = "bar"`, the first access returns
`"bar"` against an empty source and `"baz"` against a source overriding
`FOO` with `"baz"`. -/
theorem first_access_resolves_witness :
    (access envW [] (mkHolder "MOCK" [("FOO", Value.str "bar")] [] [] []) "FOO").result =
      Except.ok (Value.str "bar") ∧
    (access envW [("FOO", Value.str "baz")]
        (mkHolder "MOCK" [("FOO", Value.str "bar")] [] [] []) "FOO").result =
      Except.ok (Value.str "baz") := by
  constructor
  · exact (first_access_resolves envW [] (mkHolder "MOCK" [("FOO", Value.str "bar")] [] [] [])
      "FOO" (Value.str "bar") rfl rfl rfl).1 (Value.str "bar") rfl rfl
      (fun f hf => Option.noConfusion hf)
  · exact (first_access_resolves envW [("FOO", Value.str "baz")]
      (mkHolder "MOCK" [("FOO", Value.str "bar")] [] [] [])
      "FOO" (Value.str "bar") rfl rfl rfl).2 (Value.str "baz") (Value.str "baz") rfl rfl
      (fun f hf => Option.noConfusion hf)

/-! ### C4 -/

theorem holderSetattr_attrs (h : Holder) (attr : String) (v : Value) :
    (holderSetattr h attr v).attrs = setAttrList h.attrs attr v := by
  unfold holderSetattr
  split <;> rfl

theorem holderSetattr_lookup_self (h : Holder) (attr : String) (v : Value) :
    (holderSetattr h attr v).attrs.lookup attr = Option.some v := by
  rw [holderSetattr_attrs]
  exact lookup_setAttrList h.attrs attr v

/-- A successful access leaves the returned value in the instance
dictionary under the accessed name (either it was already there, or
`__getattr__` cached it by `setattr`). -/
theorem access_ok_lookup (env : PyEnv) (userSettings : List (String × Value))
    (h : Holder) (attr : String) (v : Value)
    (hok : (access env userSettings h attr).result = Except.ok v) :
    (access env userSettings h attr).holder.attrs.lookup attr = Option.some v := by
  cases hc : h.attrs.lookup attr with
  | some w =>
    have heq : access env userSettings h attr = ⟨Except.ok w, h, 0, 0, 0⟩ := by
      simp [access, hc]
    rw [heq] at hok ⊢
    have hok2 : (Except.ok w : Except Err Value) = Except.ok v := hok
    injection hok2 with hwv
    subst hwv
    exact hc
  | none =>
    have hred : access env userSettings h attr = holderGetattr env userSettings h attr := by
      simp [access, hc]
    rw [hred] at hok ⊢
    cases hchecked : (if h.settingsChecked = false
        then checkUserSettings h userSettings (Option.some attr)
        else
          match checkSetting h attr with
          | Option.some e => Except.error e
          | Option.none => Except.ok h) with
    | error e =>
      have heq : holderGetattr env userSettings h attr = ⟨Except.error e, h, 0, 0, 0⟩ := by
        simp [holderGetattr, hchecked]
      rw [heq] at hok
      exact absurd hok (by simp)
    | ok h1 =>
      cases hraw : rawLookup userSettings h1 attr with
      | none =>
        have heq : holderGetattr env userSettings h attr =
            ⟨Except.error (Err.keyError attr), h1, 1, 0, 0⟩ := by
          simp [holderGetattr, hchecked, hraw]
        rw [heq] at hok
        exact absurd hok (by simp)
      | some raw =>
        cases hmi : makeImports env h1.imports attr raw with
        | error e =>
          have heq : holderGetattr env userSettings h attr = ⟨Except.error e, h1, 1, 1, 0⟩ := by
            simp [holderGetattr, hchecked, hraw, hmi]
          rw [heq] at hok
          exact absurd hok (by simp)
        | ok w =>
          cases hv : h1.validators.lookup attr with
          | none =>
            have heq : holderGetattr env userSettings h attr =
                ⟨Except.ok w, holderSetattr h1 attr w, 1, 1, 0⟩ := by
              simp [holderGetattr, hchecked, hraw, hmi, hv]
            rw [heq] at hok ⊢
            have hok2 : (Except.ok w : Except Err Value) = Except.ok v := hok
            injection hok2 with hwv
            subst hwv
            exact holderSetattr_lookup_self h1 attr w
          | some f =>
            cases hfv : f w with
            | some e =>
              have heq : holderGetattr env userSettings h attr =
                  ⟨Except.error e, h1, 1, 1, 1⟩ := by
                simp [holderGetattr, hchecked, hraw, hmi, hv, hfv]
              rw [heq] at hok
              exact absurd hok (by simp)
            | none =>
              have heq : holderGetattr env userSettings h attr =
                  ⟨Except.ok w, holderSetattr h1 attr w, 1, 1, 1⟩ := by
                simp [holderGetattr, hchecked, hraw, hmi, hv, hfv]
              rw [heq] at hok ⊢
              have hok2 : (Except.ok w : Except Err Value) = Except.ok v := hok
              injection hok2 with hwv
              subst hwv
              exact holderSetattr_lookup_self h1 attr w

/-- C4: after a successful access, a second access to the same name without
an intervening reload — under any external source and any runtime — returns
the identical resolved value, leaves the holder unchanged, and performs no
external source lookup, no import resolution and no validator call. -/
theorem cached_access_is_pure (env envTwo : PyEnv)
    (userSettings userSettingsTwo : List (String × Value))
    (h : Holder) (attr : String) (v : Value)
    (hok : (access env userSettings h attr).result = Except.ok v) :
    access envTwo userSettingsTwo ((access env userSettings h attr).holder) attr =
      ⟨Except.ok v, (access env userSettings h attr).holder, 0, 0, 0⟩ := by
  have hlu := access_ok_lookup env userSettings h attr v hok
  rw [access, hlu]

/-- C4 witness: after the first access resolves `FOO` to `"bar"`, the
second access returns the same value with zero lookups, import
resolutions and validator calls even against a changed source. -/
theorem cached_access_is_pure_witness :
    access envW [("FOO", Value.str "changed")]
        ((access envW [] (mkHolder "MOCK" [("FOO", Value.str "bar")] [] [] []) "FOO").holder)
        "FOO" =
      ⟨Except.ok (Value.str "bar"),
        (access envW [] (mkHolder "MOCK" [("FOO", Value.str "bar")] [] [] []) "FOO").holder,
        0, 0, 0⟩ :=
  cached_access_is_pure envW envW [] [("FOO", Value.str "changed")]
    (mkHolder "MOCK" [("FOO", Value.str "bar")] [] [] []) "FOO" (Value.str "bar") rfl

/-! ### C5 -/

theorem checkUserSettings_ok_state (h : Holder) (userSettings : List (String × Value))
    (accessedSetting : Option String) (h1 : Holder)
    (hok : checkUserSettings h userSettings accessedSetting = Except.ok h1) :
    h1 = { h with settingsChecked := true } := by
  simp only [checkUserSettings] at hok
  split at hok
  · injection hok with hh
    exact hh.symm
  · exact Except.noConfusion hok

/-- The settings check, when it passes, changes at most the
`_settings_checked` flag: the instance dictionary and the cached-name set
survive untouched. -/
theorem checked_state (h : Holder) (userSettings : List (String × Value)) (attr : String)
    (h1 : Holder)
    (hchecked : (if h.settingsChecked = false
        then checkUserSettings h userSettings (Option.some attr)
        else
          match checkSetting h attr with
          | Option.some e => Except.error e
          | Option.none => Except.ok h) = Except.ok h1) :
    h1.attrs = h.attrs ∧ h1.cachedAttrs = h.cachedAttrs ∧ h1.defaults = h.defaults := by
  by_cases hchk : h.settingsChecked = false
  · rw [if_pos hchk] at hchecked
    have hh := checkUserSettings_ok_state h userSettings (Option.some attr) h1 hchecked
    rw [hh]
    exact ⟨rfl, rfl, rfl⟩
  · rw [if_neg hchk] at hchecked
    cases hcs : checkSetting h attr with
    | some e =>
      rw [hcs] at hchecked
      have h2 : (Except.error e : Except Err Holder) = Except.ok h1 := hchecked
      exact Except.noConfusion h2
    | none =>
      rw [hcs] at hchecked
      have h2 : (Except.ok h : Except Err Holder) = Except.ok h1 := hchecked
      injection h2 with hh
      rw [← hh]
      exact ⟨rfl, rfl, rfl⟩

/-- C5: a failing access — unknown or removed name, import resolution
failure, or validator rejection — leaves the resolved cache (the instance
dictionary and the cached-name set) unchanged, and a validator's failure is
propagated to the caller unmodified without caching the value. -/
theorem failed_access_leaves_cache (env : PyEnv) (userSettings : List (String × Value))
    (h : Holder) (attr : String) :
    (∀ e, (access env userSettings h attr).result = Except.error e →
      (access env userSettings h attr).holder.attrs = h.attrs ∧
      (access env userSettings h attr).holder.cachedAttrs = h.cachedAttrs) ∧
    (∀ w v f e, h.attrs.lookup attr = Option.none → h.settingsChecked = true →
      checkSetting h attr = Option.none →
      rawLookup userSettings h attr = Option.some w →
      makeImports env h.imports attr w = Except.ok v →
      h.validators.lookup attr = Option.some f →
      f v = Option.some e →
      (access env userSettings h attr).result = Except.error e) := by
  constructor
  · intro e herr
    cases hc : h.attrs.lookup attr with
    | some w =>
      have heq : access env userSettings h attr = ⟨Except.ok w, h, 0, 0, 0⟩ := by
        simp [access, hc]
      rw [heq] at herr
      exact absurd herr (by simp)
    | none =>
      have hred : access env userSettings h attr = holderGetattr env userSettings h attr := by
        simp [access, hc]
      rw [hred] at herr ⊢
      cases hchecked : (if h.settingsChecked = false
          then checkUserSettings h userSettings (Option.some attr)
          else
            match checkSetting h attr with
            | Option.some e => Except.error e
            | Option.none => Except.ok h) with
      | error e2 =>
        have heq : holderGetattr env userSettings h attr = ⟨Except.error e2, h, 0, 0, 0⟩ := by
          simp [holderGetattr, hchecked]
        rw [heq]
        exact ⟨rfl, rfl⟩
      | ok h1 =>
        obtain ⟨ha, hca, _⟩ := checked_state h userSettings attr h1 hchecked
        cases hraw : rawLookup userSettings h1 attr with
        | none =>
          have heq : holderGetattr env userSettings h attr =
              ⟨Except.error (Err.keyError attr), h1, 1, 0, 0⟩ := by
            simp [holderGetattr, hchecked, hraw]
          rw [heq]
          exact ⟨ha, hca⟩
        | some raw =>
          cases hmi : makeImports env h1.imports attr raw with
          | error e3 =>
            have heq : holderGetattr env userSettings h attr =
                ⟨Except.error e3, h1, 1, 1, 0⟩ := by
              simp [holderGetattr, hchecked, hraw, hmi]
            rw [heq]
            exact ⟨ha, hca⟩
          | ok w =>
            cases hv : h1.validators.lookup attr with
            | none =>
              have heq : holderGetattr env userSettings h attr =
                  ⟨Except.ok w, holderSetattr h1 attr w, 1, 1, 0⟩ := by
                simp [holderGetattr, hchecked, hraw, hmi, hv]
              rw [heq] at herr
              exact absurd herr (by simp)
            | some f =>
              cases hfv : f w with
              | some e4 =>
                have heq : holderGetattr env userSettings h attr =
                    ⟨Except.error e4, h1, 1, 1, 1⟩ := by
                  simp [holderGetattr, hchecked, hraw, hmi, hv, hfv]
                rw [heq]
                exact ⟨ha, hca⟩
              | none =>
                have heq : holderGetattr env userSettings h attr =
                    ⟨Except.ok w, holderSetattr h1 attr w, 1, 1, 1⟩ := by
                  simp [holderGetattr, hchecked, hraw, hmi, hv, hfv]
                rw [heq] at herr
                exact absurd herr (by simp)
  · intro w v f e hc hchk hcheck hraw hmi hv hfv
    simp [access, hc, holderGetattr, hchk, hcheck, hraw, hmi, hv, hfv]

/-- C5 witness: a validator that rejects `FOO`'s value with a
`ValidationError` makes the access fail with exactly that error, and the
instance dictionary and cached-name set stay empty. -/
theorem failed_access_leaves_cache_witness :
    (access envW []
        (mkHolder "MOCK" [("FOO", Value.str "bar")] [] []
          [("FOO", fun _ => Option.some (Err.validationErr "bad value"))]) "FOO").result =
      Except.error (Err.validationErr "bad value") ∧
    (access envW []
        (mkHolder "MOCK" [("FOO", Value.str "bar")] [] []
          [("FOO", fun _ => Option.some (Err.validationErr "bad value"))]) "FOO").holder.attrs =
      [] ∧
    (access envW []
        (mkHolder "MOCK" [("FOO", Value.str "bar")] [] []
          [("FOO", fun _ => Option.some (Err.validationErr "bad value"))]) "FOO").holder.cachedAttrs =
      [] := by
  have hres := (failed_access_leaves_cache envW []
    (mkHolder "MOCK" [("FOO", Value.str "bar")] [] []
      [("FOO", fun _ => Option.some (Err.validationErr "bad value"))]) "FOO").2
    (Value.str "bar") (Value.str "bar")
    (fun _ => Option.some (Err.validationErr "bad value")) (Err.validationErr "bad value")
    rfl rfl rfl rfl rfl rfl rfl
  have hstate := (failed_access_leaves_cache envW []
    (mkHolder "MOCK" [("FOO", Value.str "bar")] [] []
      [("FOO", fun _ => Option.some (Err.validationErr "bad value"))]) "FOO").1
    (Err.validationErr "bad value") hres
  exact ⟨hres, hstate.1, hstate.2⟩

/-! ### C7 -/

/-- One resolver applied to every element of a sequence in order, the first
failure propagating — the reference shape for "each element resolved via
`resolve_imports(path + \".0\", element)`". -/
def resolveElems (f : Value → Except Err Value) : ValueList → Except Err ValueList
  | ValueList.nil => Except.ok ValueList.nil
  | ValueList.cons v vs =>
    match f v with
    | Except.error e => Except.error e
    | Except.ok w =>
      match resolveElems f vs with
      | Except.error e => Except.error e
      | Except.ok ws => Except.ok (ValueList.cons w ws)

theorem makeImportsList_elementwise (env : PyEnv) (imports : List ImportString)
    (p : String) : (xs : ValueList) →
    makeImportsList env imports p xs = resolveElems (makeImports env imports p) xs
  | ValueList.nil => rfl
  | ValueList.cons v vs => by
    have ih := makeImportsList_elementwise env imports p vs
    simp only [makeImportsList, makeImportsSeq, resolveElems, makeImports] at ih ⊢
    rw [ih]

/-- C7: on a nested import-governed match, a list value is rebuilt as a
list and a tuple as a tuple, with every element resolved through
`make_imports` under the path extended by the literal segment `0`,
regardless of the element's true index. -/
theorem nested_sequence_resolution (env : PyEnv) (imports : List ImportString)
    (name : String) (xs : ValueList)
    (himp : (isImportSetting imports name).is_import = true)
    (hnest : (isImportSetting imports name).is_nested = true) :
    makeImports env imports name (Value.list xs) =
      (makeImportsList env imports (name ++ ".0") xs).map Value.list ∧
    makeImports env imports name (Value.tuple xs) =
      (makeImportsList env imports (name ++ ".0") xs).map Value.tuple ∧
    makeImportsList env imports (name ++ ".0") xs =
      resolveElems (makeImports env imports (name ++ ".0")) xs := by
  refine ⟨?_, ?_, makeImportsList_elementwise env imports (name ++ ".0") xs⟩
  · simp [makeImports, makeImportsVal, makeImportsList, himp, hnest]
  · simp [makeImports, makeImportsVal, makeImportsList, himp, hnest]

/-- C7 witness: the marker `FOO.0` makes the path `FOO` a nested match; a
one-element list resolves element-wise under `FOO.0` and stays a list,
evaluating to the imported object. -/
theorem nested_sequence_resolution_witness :
    makeImports envW [ImportString.str "FOO.0"] "FOO"
        (Value.list (ValueList.cons (Value.str "pkg.mod.function") ValueList.nil)) =
      (makeImportsList envW [ImportString.str "FOO.0"] ("FOO" ++ ".0")
        (ValueList.cons (Value.str "pkg.mod.function") ValueList.nil)).map Value.list ∧
    makeImports envW [ImportString.str "FOO.0"] "FOO"
        (Value.list (ValueList.cons (Value.str "pkg.mod.function") ValueList.nil)) =
      Except.ok (Value.list (ValueList.cons (Value.obj "pkg.mod.function") ValueList.nil)) := by
  have h := nested_sequence_resolution envW [ImportString.str "FOO.0"] "FOO"
    (ValueList.cons (Value.str "pkg.mod.function") ValueList.nil) rfl rfl
  exact ⟨h.1, rfl⟩

/-! ### C8 -/

/-- C8: on an exact (non-nested) marker match for a string value, the plain
marker variant returns the imported module attribute itself, uninvoked,
while the bytes ("invoke immediately") variant returns the result of
calling the imported object with no arguments. -/
theorem exact_import_modes (env : PyEnv) (p name s : String)
    (hm : substituteWildcards name p = name) :
    makeImports env [ImportString.str p] name (Value.str s) = importFromString env s name ∧
    makeImports env [ImportString.bytes p] name (Value.str s) =
      (importFromString env s name).map env.call := by
  have h1 : isImportSetting [ImportString.str p] name = ⟨true, false, false⟩ := by
    simp [isImportSetting, ImportString.pattern, ImportString.isBytes, hm, strStartsWith_refl]
  have h2 : isImportSetting [ImportString.bytes p] name = ⟨true, true, false⟩ := by
    simp [isImportSetting, ImportString.pattern, ImportString.isBytes, hm, strStartsWith_refl]
  constructor
  · cases hi : importFromString env s name with
    | error e => simp [makeImports, makeImportsVal, h1, hi]
    | ok v => simp [makeImports, makeImportsVal, h1, hi]
  · cases hi : importFromString env s name with
    | error e => simp [makeImports, makeImportsVal, h2, hi, Except.map]
    | ok v => simp [makeImports, makeImportsVal, h2, hi, Except.map]

/-- C8 witness: with the exact marker `FOO` and value `"pkg.mod.function"`,
the plain marker returns the function object itself and the bytes marker
returns the value of calling it with no arguments. -/
theorem exact_import_modes_witness :
    makeImports envW [ImportString.str "FOO"] "FOO" (Value.str "pkg.mod.function") =
      Except.ok (Value.obj "pkg.mod.function") ∧
    makeImports envW [ImportString.bytes "FOO"] "FOO" (Value.str "pkg.mod.function") =
      Except.ok (Value.tuple (ValueList.cons (Value.str "called")
        (ValueList.cons (Value.obj "pkg.mod.function") ValueList.nil))) := by
  have h := exact_import_modes envW "FOO" "FOO" "pkg.mod.function" rfl
  exact ⟨h.1.trans rfl, h.2.trans rfl⟩

/-! ### C10 -/

/-- The cached-name invariant of claim C10: every name in `_cached_attrs`
is a non-underscore key of `defaults`. -/
def cacheInvariant (h : Holder) : Prop :=
  ∀ attr, attr ∈ h.cachedAttrs →
    (h.defaults.lookup attr).isSome = true ∧ startsWithUnderscore attr = false

theorem holderSetattr_cachedAttrs (h : Holder) (attr : String) (v : Value) :
    (holderSetattr h attr v).cachedAttrs =
      if startsWithUnderscore attr = false ∧ (h.defaults.lookup attr).isSome then
        (if attr ∈ h.cachedAttrs then h.cachedAttrs else h.cachedAttrs ++ [attr])
      else h.cachedAttrs := by
  unfold holderSetattr
  split <;> rfl

theorem holderSetattr_defaults (h : Holder) (attr : String) (v : Value) :
    (holderSetattr h attr v).defaults = h.defaults := by
  unfold holderSetattr
  split <;> rfl

theorem setattr_preserves_invariant (h : Holder) (attr : String) (v : Value)
    (hinv : cacheInvariant h) : cacheInvariant (holderSetattr h attr v) := by
  intro a ha
  rw [holderSetattr_cachedAttrs] at ha
  rw [holderSetattr_defaults]
  by_cases hcond : startsWithUnderscore attr = false ∧ (h.defaults.lookup attr).isSome
  · rw [if_pos hcond] at ha
    by_cases hmemb : attr ∈ h.cachedAttrs
    · rw [if_pos hmemb] at ha
      exact hinv a ha
    · rw [if_neg hmemb] at ha
      rcases List.mem_append.mp ha with ha2 | ha2
      · exact hinv a ha2
      · have haeq : a = attr := by simpa using ha2
        subst haeq
        exact ⟨hcond.2, hcond.1⟩
  · rw [if_neg hcond] at ha
    exact hinv a ha

/-- C10: the cached-name set only ever holds non-underscore keys of
`defaults` — attribute assignment records a name as cached only when it is
such a key, `reload()` empties the set, and the invariant is preserved by
assignment, by reload and by any attribute access. -/
theorem cache_invariant_preserved (h : Holder) (hinv : cacheInvariant h) :
    (∀ attr v, cacheInvariant (holderSetattr h attr v)) ∧
    (∀ attr v a, a ∈ (holderSetattr h attr v).cachedAttrs →
      a ∈ h.cachedAttrs ∨
        (a = attr ∧ (h.defaults.lookup attr).isSome = true ∧
          startsWithUnderscore attr = false)) ∧
    (reload h).cachedAttrs = [] ∧
    cacheInvariant (reload h) ∧
    (∀ env userSettings attr, cacheInvariant ((access env userSettings h attr).holder)) := by
  refine ⟨?_, ?_, rfl, ?_, ?_⟩
  · intro attr v
    exact setattr_preserves_invariant h attr v hinv
  · intro attr v a ha
    rw [holderSetattr_cachedAttrs] at ha
    by_cases hcond : startsWithUnderscore attr = false ∧ (h.defaults.lookup attr).isSome
    · rw [if_pos hcond] at ha
      by_cases hmemb : attr ∈ h.cachedAttrs
      · rw [if_pos hmemb] at ha
        exact Or.inl ha
      · rw [if_neg hmemb] at ha
        rcases List.mem_append.mp ha with ha2 | ha2
        · exact Or.inl ha2
        · have haeq : a = attr := by simpa using ha2
          exact Or.inr ⟨haeq, hcond.2, hcond.1⟩
    · rw [if_neg hcond] at ha
      exact Or.inl ha
  · intro a ha
    simp [reload] at ha
  · intro env userSettings attr
    cases hc : h.attrs.lookup attr with
    | some w =>
      have heq : access env userSettings h attr = ⟨Except.ok w, h, 0, 0, 0⟩ := by
        simp [access, hc]
      rw [heq]
      exact hinv
    | none =>
      have hred : access env userSettings h attr = holderGetattr env userSettings h attr := by
        simp [access, hc]
      rw [hred]
      cases hchecked : (if h.settingsChecked = false
          then checkUserSettings h userSettings (Option.some attr)
          else
            match checkSetting h attr with
            | Option.some e => Except.error e
            | Option.none => Except.ok h) with
      | error e =>
        have heq : holderGetattr env userSettings h attr = ⟨Except.error e, h, 0, 0, 0⟩ := by
          simp [holderGetattr, hchecked]
        rw [heq]
        exact hinv
      | ok h1 =>
        obtain ⟨ha1, hca1, hd1⟩ := checked_state h userSettings attr h1 hchecked
        have hinv1 : cacheInvariant h1 := by
          intro a haa
          rw [hca1] at haa
          rw [hd1]
          exact hinv a haa
        cases hraw : rawLookup userSettings h1 attr with
        | none =>
          have heq : holderGetattr env userSettings h attr =
              ⟨Except.error (Err.keyError attr), h1, 1, 0, 0⟩ := by
            simp [holderGetattr, hchecked, hraw]
          rw [heq]
          exact hinv1
        | some raw =>
          cases hmi : makeImports env h1.imports attr raw with
          | error e =>
            have heq : holderGetattr env userSettings h attr =
                ⟨Except.error e, h1, 1, 1, 0⟩ := by
              simp [holderGetattr, hchecked, hraw, hmi]
            rw [heq]
            exact hinv1
          | ok w =>
            cases hv : h1.validators.lookup attr with
            | none =>
              have heq : holderGetattr env userSettings h attr =
                  ⟨Except.ok w, holderSetattr h1 attr w, 1, 1, 0⟩ := by
                simp [holderGetattr, hchecked, hraw, hmi, hv]
              rw [heq]
              exact setattr_preserves_invariant h1 attr w hinv1
            | some f =>
              cases hfv : f w with
              | some e =>
                have heq : holderGetattr env userSettings h attr =
                    ⟨Except.error e, h1, 1, 1, 1⟩ := by
                  simp [holderGetattr, hchecked, hraw, hmi, hv, hfv]
                rw [heq]
                exact hinv1
              | none =>
                have heq : holderGetattr env userSettings h attr =
                    ⟨Except.ok w, holderSetattr h1 attr w, 1, 1, 1⟩ := by
                  simp [holderGetattr, hchecked, hraw, hmi, hv, hfv]
                rw [heq]
                exact setattr_preserves_invariant h1 attr w hinv1

/-- A holder with one resolved attribute, for the invariant witness. -/
def holderC10 : Holder :=
  ⟨"MOCK", [("FOO", Value.int 1)], [], [], [], [("FOO", Value.int 1)], ["FOO"], true⟩

/-- C10 witness: on a holder whose cache holds the valid name `FOO`, a
fresh assignment keeps the invariant and `reload()` empties the cache. -/
theorem cache_invariant_preserved_witness :
    cacheInvariant (holderSetattr holderC10 "BAR" (Value.int 2)) ∧
    (reload holderC10).cachedAttrs = [] := by
  have hinv : cacheInvariant holderC10 := by
    intro a ha
    rcases List.mem_singleton.mp ha with rfl
    exact ⟨rfl, rfl⟩
  have h := cache_invariant_preserved holderC10 hinv
  exact ⟨h.1 "BAR" (Value.int 2), h.2.2.1⟩
